import Mathlib

/-!
Verification of the analytics core of `stock_analyzer.py`.

The program loads an OHLCV price table (a pandas DataFrame indexed by date,
one row per trading day), enriches it in `calculate_metrics` with derived
columns (Daily_Return, Cumulative_Return, MA_20, MA_50, MA_200, Volatility),
computes summary statistics, and displays key metrics.

Embedding conventions:
- a DataFrame of bars is a `List Bar`, one element per row, in index order;
- pandas `NaN` cells (missing values at series boundaries, or statistics over
  too few observations, or a zero-by-zero division) are modelled as
  `Option.none`; a present numeric cell is `some v`;
- exact prices and returns are rationals; `np.sqrt` is modelled by
  `Real.sqrt`, so the Volatility column and the Sharpe ratio live in `ℝ`.
-/

/-- One row of the raw DataFrame returned by `stock.history`: the date index
value and the Open/High/Low/Close/Volume columns. -/
structure Bar where
  date : ℤ
  Open : ℚ
  High : ℚ
  Low : ℚ
  Close : ℚ
  Volume : ℕ
deriving DecidableEq

/-- The Close column read at row `i` (0 outside the table; every use below is
guarded by an in-bounds condition). -/
def closeD (df : List Bar) (i : ℕ) : ℚ :=
  ((df.get? i).map Bar.Close).getD 0

/-- The value `Close[i] / Close[i-1] - 1` that `pct_change` stores at row
`i ≥ 1`. -/
def retD (df : List Bar) (i : ℕ) : ℚ :=
  closeD df i / closeD df (i - 1) - 1

/-- Column `df[Daily_Return] = df[Close].pct_change()` (line 87): `NaN` at
row 0, and `Close[i]/Close[i-1] - 1` at every later row. -/
def Daily_Return (df : List Bar) (i : ℕ) : Option ℚ :=
  if 1 ≤ i ∧ i < df.length then some (retD df i) else none

/-- Left-to-right product of `1 + Daily_Return[j]` over `j = 1 .. i`, the
value pandas `cumprod` (which skips the single `NaN` at row 0) accumulates
by row `i`. -/
def compounded (df : List Bar) (i : ℕ) : ℚ :=
  ((List.range i).map (fun j => 1 + retD df (j + 1))).prod

/-- Column `df[Cumulative_Return] = (1 + df[Daily_Return]).cumprod() - 1`
(line 88): `NaN` at row 0 (where `1 + NaN = NaN`), and the running product of
`1 + Daily_Return` minus 1 at every later row. -/
def Cumulative_Return (df : List Bar) (i : ℕ) : Option ℚ :=
  if 1 ≤ i ∧ i < df.length then some (compounded df i - 1) else none

/-- The `k` Close values `Close[i-k+1] .. Close[i]` seen by a trailing window
of width `k` ending at row `i` (indices computed with truncated subtraction;
every use is guarded by `k ≤ i + 1`). -/
def windowClose (k : ℕ) (df : List Bar) (i : ℕ) : List ℚ :=
  (List.range k).map (fun j => closeD df (i + 1 - k + j))

/-- Columns `df[MA_k] = df[Close].rolling(window=k).mean()` for
k = 20, 50, 200 (lines 91-93): `NaN` until a full window of `k` rows exists,
then the arithmetic mean of the trailing `k` Close values. -/
def MA (k : ℕ) (df : List Bar) (i : ℕ) : Option ℚ :=
  if k ≤ i + 1 ∧ i < df.length then some ((windowClose k df i).sum / k)
  else none

/-- Sample variance (divisor `n - 1`, pandas `ddof=1` default) of a list of
rationals; junk (division by zero) below 2 elements, where pandas yields
`NaN` — every use below is guarded accordingly. -/
def sampleVar (xs : List ℚ) : ℚ :=
  ((xs.map (fun x => (x - xs.sum / xs.length) ^ 2)).sum) / (xs.length - 1)

/-- Sample standard deviation: square root of the sample variance. -/
noncomputable def sampleStd (xs : List ℚ) : ℝ :=
  Real.sqrt ((sampleVar xs : ℚ) : ℝ)

/-- The 20 Daily_Return values `Daily_Return[i-19] .. Daily_Return[i]` seen
by the trailing volatility window ending at row `i` (guarded by `20 ≤ i`,
which makes every index at least 1, i.e. a defined return). -/
def windowRet (df : List Bar) (i : ℕ) : List ℚ :=
  (List.range 20).map (fun j => retD df (i - 19 + j))

/-- Column `df[Volatility] = df[Daily_Return].rolling(window=20).std() *
np.sqrt(252)` (line 96). Rolling `std` needs 20 non-`NaN` observations in
the window; because `Daily_Return[0]` is `NaN`, the first full window is at
row 20 (covering returns 1..20), so the column is `NaN` for `i < 20`. -/
noncomputable def Volatility (df : List Bar) (i : ℕ) : Option ℝ :=
  if 20 ≤ i ∧ i < df.length then
    some (sampleStd (windowRet df i) * Real.sqrt 252)
  else none

/-- One row of the enriched DataFrame: the raw bar plus the six derived
columns that `calculate_metrics` appends. -/
structure EnrichedRow where
  bar : Bar
  dailyReturn : Option ℚ
  cumulativeReturn : Option ℚ
  ma20 : Option ℚ
  ma50 : Option ℚ
  ma200 : Option ℚ
  volatility : Option ℝ

/-- Row `i` of the enriched DataFrame: the raw row plus the six derived
columns at index `i`. -/
noncomputable def enrich_row (df : List Bar) (i : ℕ) : EnrichedRow :=
  ⟨(df.get? i).getD ⟨0, 0, 0, 0, 0, 0⟩,
   Daily_Return df i, Cumulative_Return df i,
   MA 20 df i, MA 50 df i, MA 200 df i, Volatility df i⟩

/-- The function `calculate_metrics(df)` (lines 81-98): `None` on an empty
DataFrame (`if df.empty: return None`), otherwise the same rows, in the same
order, each augmented with the six derived columns. -/
noncomputable def calculate_metrics (df : List Bar) : Option (List EnrichedRow) :=
  if df = [] then none
  else some ((List.range df.length).map (enrich_row df))

/-- The defined entries of the Daily_Return column (rows 1 .. length-1), the
series over which the summary statistics (`mean()`, `std()`, `min()`,
`max()`, lines 352-356) are taken: pandas skips the `NaN` at row 0. -/
def drList (df : List Bar) : List ℚ :=
  (List.range (df.length - 1)).map (fun j => retD df (j + 1))

/-- The displayed Sharpe ratio
`df[Daily_Return].mean() / df[Daily_Return].std() * np.sqrt(252)`
(line 356). pandas `std` is `NaN` below 2 observations, and a zero standard
deviation makes the quotient `0/0 = NaN`; both `NaN` outcomes are modelled
as `none`. -/
noncomputable def sharpe_approx (df : List Bar) : Option ℝ :=
  if (drList df).length < 2 ∨ sampleVar (drList df) = 0 then none
  else
    some ((((drList df).sum / (drList df).length : ℚ) : ℝ) /
      sampleStd (drList df) * Real.sqrt 252)

/-- The `total_return` computed by `display_key_metrics` (line 251):
`(Close.iloc[-1] - Close.iloc[0]) / Close.iloc[0] * 100`, a percentage. -/
def total_return (df : List Bar) : ℚ :=
  ((closeD df (df.length - 1) - closeD df 0) / closeD df 0) * 100

/-- Strictly ascending date index, as the Loader guarantees. -/
def Ascending (df : List Bar) : Prop :=
  List.Chain' (fun a b => a.date < b.date) df

instance (df : List Bar) : Decidable (Ascending df) :=
  inferInstanceAs (Decidable (List.Chain' (fun a b : Bar => a.date < b.date) df))

/-! Concrete tables used by the witnesses. -/

/-- A concrete two-row table with ascending dates and closes 1, 2. -/
def df2 : List Bar := [⟨0, 1, 1, 1, 1, 0⟩, ⟨1, 2, 2, 2, 2, 0⟩]

/-- A concrete 21-row constant-price table. -/
def df21 : List Bar := List.replicate 21 ⟨0, 1, 1, 1, 1, 0⟩

/-! Helper lemmas. -/

lemma closeD_pos_ne (df : List Bar) (hpos : ∀ j, j < df.length → 0 < closeD df j)
    (j : ℕ) (hj : j < df.length) : closeD df j ≠ 0 :=
  ne_of_gt (hpos j hj)

/-! Theorems for the claims. -/

/-- C6: on the empty bar sequence, `calculate_metrics` returns the explicit
"no data" result (`None`, from `if df.empty: return None`) rather than a
table of values. -/
theorem calculate_metrics_empty_none : calculate_metrics ([] : List Bar) = none := by
  simp [calculate_metrics]

/-- C2: on a table with at least 2 rows and positive closes, the
Daily_Return column holds `Close[i]/Close[i-1] - 1` at every row `i ≥ 1` and
no value at row 0. -/
theorem daily_return_spec (df : List Bar) (h2 : 2 ≤ df.length)
    (hpos : ∀ j, j < df.length → 0 < closeD df j) :
    Daily_Return df 0 = none ∧
    ∀ i, 1 ≤ i → i < df.length →
      ∃ a b, df.get? (i - 1) = some a ∧ df.get? i = some b ∧
        Daily_Return df i = some (b.Close / a.Close - 1) := by
  refine ⟨by simp [Daily_Return], ?_⟩
  intro i h1 hi
  have hi1 : i - 1 < df.length := lt_of_le_of_lt (Nat.sub_le i 1) hi
  refine ⟨df.get ⟨i - 1, hi1⟩, df.get ⟨i, hi⟩, List.get?_eq_get hi1,
    List.get?_eq_get hi, ?_⟩
  simp [Daily_Return, retD, h1, hi, closeD, List.getElem?_eq_getElem hi1,
    List.getElem?_eq_getElem hi]

/-- Witness for C2 at the concrete table `df2`. -/
theorem daily_return_spec_witness :
    (2 ≤ df2.length ∧ ∀ j, j < df2.length → 0 < closeD df2 j) ∧
    (Daily_Return df2 0 = none ∧
     ∀ i, 1 ≤ i → i < df2.length →
       ∃ a b, df2.get? (i - 1) = some a ∧ df2.get? i = some b ∧
         Daily_Return df2 i = some (b.Close / a.Close - 1)) :=
  ⟨⟨by decide, by decide⟩, daily_return_spec df2 (by decide) (by decide)⟩

/-- C4: for k in {20, 50, 200}, the MA_k column has a value at row `i` iff
a full window fits (`i - k + 1 ≥ 0`, i.e. `k ≤ i + 1`), and where present it
is the arithmetic mean of the trailing `k` Close values — never a partial or
padded window. -/
theorem ma_full_window (k : ℕ) (hk : k = 20 ∨ k = 50 ∨ k = 200)
    (df : List Bar) (i : ℕ) (hi : i < df.length) :
    ((MA k df i).isSome ↔ k ≤ i + 1) ∧
    ∀ v, MA k df i = some v → v = (windowClose k df i).sum / k := by
  constructor
  · unfold MA
    by_cases h : k ≤ i + 1
    · simp [h, hi]
    · simp [h]
  · intro v hv
    unfold MA at hv
    by_cases h : k ≤ i + 1 ∧ i < df.length
    · rw [if_pos h] at hv
      exact (Option.some_inj.mp hv).symm
    · rw [if_neg h] at hv
      exact absurd hv (by simp)

/-- Witness for C4 at k = 20, row 20 of the concrete table `df21`. -/
theorem ma_full_window_witness :
    ((20 = 20 ∨ 20 = 50 ∨ 20 = 200) ∧ 20 < df21.length) ∧
    (((MA 20 df21 20).isSome ↔ 20 ≤ 20 + 1) ∧
     ∀ v, MA 20 df21 20 = some v → v = (windowClose 20 df21 20).sum / 20) :=
  ⟨⟨by decide, by decide⟩, ma_full_window 20 (by decide) df21 20 (by decide)⟩

/-- C5: the Volatility column has a value at row `i` iff 20 daily-return
observations exist up to and including `i` (i.e. `i ≥ 20`, the return at
row 0 being undefined), and where present it is the sample standard
deviation (divisor n-1) of the trailing 20 returns times the square root
of 252. -/
theorem volatility_window (df : List Bar) (i : ℕ) (hi : i < df.length) :
    ((Volatility df i).isSome ↔ 20 ≤ i) ∧
    ∀ v, Volatility df i = some v →
      v = sampleStd (windowRet df i) * Real.sqrt 252 := by
  constructor
  · unfold Volatility
    by_cases h : 20 ≤ i
    · simp [h, hi]
    · simp [h]
  · intro v hv
    unfold Volatility at hv
    by_cases h : 20 ≤ i ∧ i < df.length
    · rw [if_pos h] at hv
      exact (Option.some_inj.mp hv).symm
    · rw [if_neg h] at hv
      exact absurd hv (by simp)

/-- Witness for C5 at row 20 of the concrete table `df21`. -/
theorem volatility_window_witness :
    (20 < df21.length) ∧
    (((Volatility df21 20).isSome ↔ 20 ≤ 20) ∧
     ∀ v, Volatility df21 20 = some v →
       v = sampleStd (windowRet df21 20) * Real.sqrt 252) :=
  ⟨by decide, volatility_window df21 20 (by decide)⟩

/-- C1: on a non-empty table with strictly ascending dates,
`calculate_metrics` returns a table with exactly the same number of rows
carrying exactly the same bars (hence the same dates) in the same order. -/
theorem calculate_metrics_preserves_rows (df : List Bar) (hne : df ≠ [])
    (hasc : Ascending df) :
    ∃ rows, calculate_metrics df = some rows ∧
      rows.length = df.length ∧ rows.map EnrichedRow.bar = df := by
  refine ⟨(List.range df.length).map (enrich_row df),
    by simp [calculate_metrics, hne], by simp, ?_⟩
  apply List.ext_getElem
  · simp
  · intro i h1 h2
    simp [enrich_row, List.getElem?_eq_getElem h2]

/-- Witness for C1 at the concrete table `df2`. -/
theorem calculate_metrics_preserves_rows_witness :
    (df2 ≠ [] ∧ Ascending df2) ∧
    (∃ rows, calculate_metrics df2 = some rows ∧
      rows.length = df2.length ∧ rows.map EnrichedRow.bar = df2) :=
  ⟨⟨by decide, by norm_num [Ascending, df2]⟩,
   calculate_metrics_preserves_rows df2 (by decide) (by norm_num [Ascending, df2])⟩

/-- C10: on a non-empty table, `calculate_metrics` returns the rows it was
given — the raw Open/High/Low/Close/Volume columns and the date index value
of every row unchanged — each augmented with exactly the six derived
columns. -/
theorem calculate_metrics_frame (df : List Bar) (hne : df ≠ []) :
    ∃ rows, calculate_metrics df = some rows ∧ rows.length = df.length ∧
      ∀ i, i < df.length →
        ∃ r, rows.get? i = some r ∧ df.get? i = some r.bar ∧
          r.dailyReturn = Daily_Return df i ∧
          r.cumulativeReturn = Cumulative_Return df i ∧
          r.ma20 = MA 20 df i ∧ r.ma50 = MA 50 df i ∧
          r.ma200 = MA 200 df i ∧ r.volatility = Volatility df i := by
  refine ⟨(List.range df.length).map (enrich_row df),
    by simp [calculate_metrics, hne], by simp, ?_⟩
  intro i hi
  refine ⟨enrich_row df i, ?_, ?_, rfl, rfl, rfl, rfl, rfl, rfl⟩
  · simp [List.get?_eq_getElem?, List.getElem?_range, hi]
  · simp [enrich_row, List.getElem?_eq_getElem hi]

/-- Witness for C10 at the concrete table `df2`. -/
theorem calculate_metrics_frame_witness :
    (df2 ≠ []) ∧
    (∃ rows, calculate_metrics df2 = some rows ∧ rows.length = df2.length ∧
      ∀ i, i < df2.length →
        ∃ r, rows.get? i = some r ∧ df2.get? i = some r.bar ∧
          r.dailyReturn = Daily_Return df2 i ∧
          r.cumulativeReturn = Cumulative_Return df2 i ∧
          r.ma20 = MA 20 df2 i ∧ r.ma50 = MA 50 df2 i ∧
          r.ma200 = MA 200 df2 i ∧ r.volatility = Volatility df2 i) :=
  ⟨by decide, calculate_metrics_frame df2 (by decide)⟩

lemma compounded_succ (df : List Bar) (i : ℕ) :
    compounded df (i + 1) = compounded df i * (1 + retD df (i + 1)) := by
  simp [compounded, List.range_succ]

lemma compounded_eq_close_ratio (df : List Bar) (i : ℕ) (hi : i < df.length)
    (hpos : ∀ j, j < df.length → 0 < closeD df j) :
    compounded df i = closeD df i / closeD df 0 := by
  induction i with
  | zero =>
    have h0 : closeD df 0 ≠ 0 := closeD_pos_ne df hpos 0 hi
    simp [compounded, div_self h0]
  | succ n ih =>
    have hn : n < df.length := Nat.lt_of_succ_lt hi
    have h0 : closeD df 0 ≠ 0 :=
      closeD_pos_ne df hpos 0 (Nat.lt_of_le_of_lt (Nat.zero_le _) hi)
    have hcn : closeD df n ≠ 0 := closeD_pos_ne df hpos n hn
    rw [compounded_succ, ih hn]
    unfold retD
    rw [Nat.add_sub_cancel]
    field_simp
    ring

/-- C3: on positive closes, where every daily return up to row `i` is
defined (every row `1 ≤ j ≤ i`), the compounded Cumulative_Return value
agrees with the direct reconstruction `(Close[i] - Close[0]) / Close[0]`
within a relative tolerance of 1e-9 (in this exact-arithmetic model the two
are equal, so the bound holds with room to spare). -/
theorem cumulative_return_compounds (df : List Bar) (i : ℕ)
    (h1 : 1 ≤ i) (hi : i < df.length)
    (hpos : ∀ j, j < df.length → 0 < closeD df j) :
    ∃ v, Cumulative_Return df i = some v ∧
      |v - (closeD df i - closeD df 0) / closeD df 0| ≤
        1 / 10 ^ 9 * |(closeD df i - closeD df 0) / closeD df 0| := by
  refine ⟨compounded df i - 1, by simp [Cumulative_Return, h1, hi], ?_⟩
  have h0 : closeD df 0 ≠ 0 :=
    closeD_pos_ne df hpos 0 (Nat.lt_of_le_of_lt (Nat.zero_le _) hi)
  rw [compounded_eq_close_ratio df i hi hpos]
  have heq : closeD df i / closeD df 0 - 1 =
      (closeD df i - closeD df 0) / closeD df 0 := by
    field_simp
  rw [heq, sub_self, abs_zero]
  positivity

/-- Witness for C3 at row 1 of the concrete table `df2`. -/
theorem cumulative_return_compounds_witness :
    (1 ≤ 1 ∧ 1 < df2.length ∧ ∀ j, j < df2.length → 0 < closeD df2 j) ∧
    (∃ v, Cumulative_Return df2 1 = some v ∧
      |v - (closeD df2 1 - closeD df2 0) / closeD df2 0| ≤
        1 / 10 ^ 9 * |(closeD df2 1 - closeD df2 0) / closeD df2 0|) :=
  ⟨⟨by decide, by decide, by decide⟩,
   cumulative_return_compounds df2 1 (by decide) (by decide) (by decide)⟩

lemma closeD_const (df : List Bar) (c : ℚ) (hall : ∀ b ∈ df, b.Close = c)
    (i : ℕ) (hi : i < df.length) : closeD df i = c := by
  simp only [closeD, List.get?_eq_getElem?, List.getElem?_eq_getElem hi,
    Option.map_some, Option.getD_some]
  exact hall _ (df.getElem_mem hi)

lemma retD_const (df : List Bar) (c : ℚ) (hall : ∀ b ∈ df, b.Close = c)
    (hc : c ≠ 0) (i : ℕ) (h1 : 1 ≤ i) (hi : i < df.length) : retD df i = 0 := by
  have hi1 : i - 1 < df.length := lt_of_le_of_lt (Nat.sub_le i 1) hi
  rw [retD, closeD_const df c hall i hi, closeD_const df c hall (i - 1) hi1,
    div_self hc, sub_self]

lemma sampleVar_of_zeros (xs : List ℚ) (h : ∀ x ∈ xs, x = 0) :
    sampleVar xs = 0 := by
  have hsum : xs.sum = 0 := List.sum_eq_zero h
  have hmap : (xs.map (fun x => (x - xs.sum / xs.length) ^ 2)).sum = 0 := by
    apply List.sum_eq_zero
    intro y hy
    obtain ⟨x, hx, rfl⟩ := List.mem_map.mp hy
    rw [h x hx, hsum]
    simp
  rw [sampleVar, hmap, zero_div]

/-- C7: on any 30-row constant-price table, every defined Daily_Return value
is 0, every defined Volatility value is 0 (a zero standard deviation times
the square root of 252), and the Sharpe ratio is the undefined 0/0, modelled
as `none`. -/
theorem constant_series_stats (df : List Bar) (c : ℚ) (hlen : df.length = 30)
    (hc : 0 < c) (hall : ∀ b ∈ df, b.Close = c) :
    (∀ i r, Daily_Return df i = some r → r = 0) ∧
    (∀ i v, Volatility df i = some v → v = 0) ∧
    sharpe_approx df = none := by
  have hc0 : c ≠ 0 := ne_of_gt hc
  refine ⟨?_, ?_, ?_⟩
  · intro i r h
    by_cases hcnd : 1 ≤ i ∧ i < df.length
    · rw [Daily_Return, if_pos hcnd] at h
      rw [← Option.some_inj.mp h]
      exact retD_const df c hall hc0 i hcnd.1 hcnd.2
    · rw [Daily_Return, if_neg hcnd] at h
      exact absurd h (by simp)
  · intro i v h
    by_cases hcnd : 20 ≤ i ∧ i < df.length
    · rw [Volatility, if_pos hcnd] at h
      have hzero : ∀ x ∈ windowRet df i, x = 0 := by
        intro x hx
        obtain ⟨j, hj, rfl⟩ := List.mem_map.mp hx
        have hj20 : j < 20 := List.mem_range.mp hj
        exact retD_const df c hall hc0 _ (by omega) (by omega)
      have hstd : sampleStd (windowRet df i) = 0 := by
        rw [sampleStd, sampleVar_of_zeros _ hzero]
        simp
      rw [← Option.some_inj.mp h, hstd, zero_mul]
    · rw [Volatility, if_neg hcnd] at h
      exact absurd h (by simp)
  · have hzero : ∀ x ∈ drList df, x = 0 := by
      intro x hx
      obtain ⟨j, hj, rfl⟩ := List.mem_map.mp hx
      have hj29 : j < df.length - 1 := List.mem_range.mp hj
      exact retD_const df c hall hc0 _ (by omega) (by omega)
    rw [sharpe_approx, if_pos (Or.inr (sampleVar_of_zeros _ hzero))]

/-- A concrete 30-row constant-price table. -/
def df30 : List Bar := List.replicate 30 ⟨0, 1, 1, 1, 1, 0⟩

/-- Witness for C7 at the concrete table `df30`. -/
theorem constant_series_stats_witness :
    (df30.length = 30 ∧ (0 : ℚ) < 1 ∧ ∀ b ∈ df30, b.Close = 1) ∧
    ((∀ i r, Daily_Return df30 i = some r → r = 0) ∧
     (∀ i v, Volatility df30 i = some v → v = 0) ∧
     sharpe_approx df30 = none) :=
  ⟨⟨by decide, by decide, by decide⟩,
   constant_series_stats df30 1 (by decide) (by decide) (by decide)⟩

/-- C8: with at least 2 rows and positive closes, the `total_return` shown
by `display_key_metrics` is the percentage form of
`(Close[last] - Close[first]) / Close[first]` — dividing out the factor 100
used for display recovers that ratio exactly — and it is positive whenever
the Close series is strictly increasing. -/
theorem total_return_spec (df : List Bar) (h2 : 2 ≤ df.length)
    (hpos : ∀ j, j < df.length → 0 < closeD df j) :
    total_return df / 100 =
      (closeD df (df.length - 1) - closeD df 0) / closeD df 0 ∧
    ((∀ j, j < df.length → ∀ i, i < j → closeD df i < closeD df j) →
      0 < total_return df) := by
  constructor
  · rw [total_return]
    exact mul_div_cancel_right₀ _ (by norm_num)
  · intro hmono
    have h0 : 0 < closeD df 0 := hpos 0 (by omega)
    have hlast : closeD df 0 < closeD df (df.length - 1) :=
      hmono (df.length - 1) (by omega) 0 (by omega)
    have hratio : 0 < (closeD df (df.length - 1) - closeD df 0) / closeD df 0 :=
      div_pos (by linarith) h0
    rw [total_return]
    exact mul_pos hratio (by norm_num)

/-- Witness for C8 at the concrete table `df2`. -/
theorem total_return_spec_witness :
    (2 ≤ df2.length ∧ ∀ j, j < df2.length → 0 < closeD df2 j) ∧
    (total_return df2 / 100 =
       (closeD df2 (df2.length - 1) - closeD df2 0) / closeD df2 0 ∧
     ((∀ j, j < df2.length → ∀ i, i < j → closeD df2 i < closeD df2 j) →
       0 < total_return df2)) :=
  ⟨⟨by decide, by decide⟩, total_return_spec df2 (by decide) (by decide)⟩

/-! Error surfacing: the request flow of the main application logic. -/

/-- The failure reasons of one analysis request: `MissingInput` (blank
ticker at submission), `InvalidTicker` (no such instrument), `EmptyHistory`
(instrument with no bars for the period), `TransientFetchError`
(network/provider failure raised inside `get_stock_data`). -/
inductive FailReason
  | MissingInput
  | InvalidTicker
  | EmptyHistory
  | TransientFetchError
deriving DecidableEq

/-- The user-facing outcome of one request: the `st.warning` asking for a
ticker (line 377), the `st.error` about being unable to fetch data
(line 373), or a successful analysis display. -/
inductive UserMessage
  | missingTicker
  | fetchFailure
  | analysisShown
deriving DecidableEq

/-- The message branch of the main application logic (lines 309-377): with a
blank ticker only the warning fires; otherwise a fetched history that is
`None` (an exception caught by `get_stock_data`, lines 78-79) or empty takes
the `st.error` branch, and any other history is analysed and displayed. -/
def mainMessage (ticker : String) (histResult : Option (List Bar)) : UserMessage :=
  if ticker = "" then UserMessage.missingTicker
  else
    match histResult with
    | some hist => if hist = [] then UserMessage.fetchFailure
                   else UserMessage.analysisShown
    | none => UserMessage.fetchFailure

/-- What each failure reason looks like at the `mainMessage` boundary. The
loader itself (yfinance) is an external collaborator: an unknown ticker and
an empty period both hand back an empty history table (and a raised
exception is caught by `get_stock_data` and handed back as `None`, lines
73-79), so `InvalidTicker` and `EmptyHistory` arrive as an empty table,
`TransientFetchError` as `None`, and `MissingInput` never reaches the
loader at all. -/
def scenarioMessage : FailReason → UserMessage
  | FailReason.MissingInput => mainMessage "" none
  | FailReason.InvalidTicker => mainMessage "ZZZZZZ" (some [])
  | FailReason.EmptyHistory => mainMessage "AAPL" (some [])
  | FailReason.TransientFetchError => mainMessage "AAPL" none

/-- C9 counterexample: two distinct failure reasons — a valid instrument
with an empty history and a transient fetch error — surface as the same
user-facing message, so the four reasons do not each produce a
distinguishable message. -/
theorem failure_messages_collide :
    scenarioMessage FailReason.EmptyHistory =
      scenarioMessage FailReason.TransientFetchError ∧
    FailReason.EmptyHistory ≠ FailReason.TransientFetchError := by
  decide

/-- C9 amended: every failure reason is surfaced as a user-facing message
rather than an unhandled fault, and the blank-ticker warning is
distinguishable from the fetch-failure error, but `InvalidTicker`,
`EmptyHistory` and `TransientFetchError` all collapse to the single generic
fetch-failure message. -/
theorem failure_messages_surfaced :
    scenarioMessage FailReason.MissingInput = UserMessage.missingTicker ∧
    scenarioMessage FailReason.InvalidTicker = UserMessage.fetchFailure ∧
    scenarioMessage FailReason.EmptyHistory = UserMessage.fetchFailure ∧
    scenarioMessage FailReason.TransientFetchError = UserMessage.fetchFailure ∧
    UserMessage.missingTicker ≠ UserMessage.fetchFailure := by
  decide
